import Mathlib

/-!
Verification of the Homgar cloud-API client and device-status decoder.

This file is a shallow embedding, in Lean 4, of the status-codec and
API-client logic of `custom_components/homgar/devices.py` and
`custom_components/homgar/api.py`:

* the stats-value decoder `_parse_stats_value` (regex `^(\d+)\((\d+)/(\d+)/(\d+)\)`,
  used with `fullmatch`);
* the `DiivooWT11W` tag-hex stream decoder (`_parse_device_specific_status_d_value`,
  `_parse_hex_status_data`, `_parse_port_statuses_precise`,
  `_parse_countdown_timers_precise`, `_parse_duration_settings_precise`);
* the `RainPointDisplayHub` status parsers (`_parse_status_d_value`,
  `_parse_general_status_d_value`, `_parse_device_specific_status_d_value`);
* `HomgarApi.is_subscription_expired`, `HomgarApi.ensure_logged_in` and the
  subdevice filtering of `HomgarApi.get_devices_for_hid`.

Strings are modelled as `List Char` (ASCII; the source operates on ASCII
payloads).  Python's in-place attribute mutation is modelled by explicit state
passing; Python statements that can raise are modelled with `Except`, where the
`Except.error` payload stands for the exception.  The clock, which the source
reads via `datetime.utcnow()`, is passed as an explicit argument.  Python's
`int(s)` / `int(s, 16)` conversions are modelled by `pythonIntDec?` /
`pythonIntHex?` below, which implement the CPython integer-literal grammar
(optional surrounding ASCII whitespace, optional sign, optional `0x`/`0X`
prefix in base 16, digits with single underscores between them) over ASCII.
-/

/-! ## Python `int(·)` / `int(·, 16)` conversion model -/

/-- ASCII whitespace stripped by Python `int()` around a numeric literal. -/
def pyWs (c : Char) : Bool :=
  c = ' ' || c = '\t' || c = '\n' || c = '\r' || c = '\x0b' || c = '\x0c'

/-- Strip leading and trailing whitespace, as Python `int()` does. -/
def stripWs (l : List Char) : List Char :=
  ((l.dropWhile pyWs).reverse.dropWhile pyWs).reverse

/-- ASCII hexadecimal digit. -/
def isHexDig (c : Char) : Bool :=
  c.isDigit || ('a' ≤ c && c ≤ 'f') || ('A' ≤ c && c ≤ 'F')

/-- Value of an ASCII hexadecimal digit. -/
def hexDigVal (c : Char) : Nat :=
  if c.isDigit then c.toNat - 48
  else if 'a' ≤ c then c.toNat - 87
  else c.toNat - 55

/-- Value of an ASCII decimal digit. -/
def decDigVal (c : Char) : Nat := c.toNat - 48

/-- Digits of a Python integer literal after the first digit: single
underscores are allowed between digits, not trailing and not doubled. -/
def digitsGo (isDig : Char → Bool) (dval : Char → Nat) (base : Nat)
    (acc : Nat) : List Char → Option Nat
  | [] => some acc
  | c :: rest =>
    if c = '_' then
      match rest with
      | [] => none
      | d :: rest2 =>
        if isDig d then digitsGo isDig dval base (base * acc + dval d) rest2
        else none
    else if isDig c then digitsGo isDig dval base (base * acc + dval c) rest
    else none

/-- A nonempty run of digits with embedded underscores; must start with a
digit. -/
def digitsStart (isDig : Char → Bool) (dval : Char → Nat) (base : Nat) :
    List Char → Option Nat
  | [] => none
  | c :: rest => if isDig c then digitsGo isDig dval base (dval c) rest else none

/-- Hexadecimal digit part.  After a `0x` prefix Python additionally allows one
underscore before the first digit (`int("0x_1f", 16) = 31`). -/
def hexDigitsPart (allowLeadUnderscore : Bool) (l : List Char) : Option Nat :=
  match l with
  | '_' :: rest =>
    if allowLeadUnderscore then digitsStart isHexDig hexDigVal 16 rest else none
  | _ => digitsStart isHexDig hexDigVal 16 l

/-- Base-16 literal after the optional sign: optional `0x`/`0X` prefix, then
hex digits. -/
def afterSign (l : List Char) : Option Nat :=
  match l with
  | '0' :: x :: rest =>
    if x = 'x' ∨ x = 'X' then hexDigitsPart true rest
    else hexDigitsPart false ('0' :: x :: rest)
  | _ => hexDigitsPart false l

/-- Model of Python `int(s, 16)`: `none` models a raised `ValueError`. -/
def pythonIntHex? (l : List Char) : Option Int :=
  match stripWs l with
  | '+' :: rest => (afterSign rest).map Int.ofNat
  | '-' :: rest => (afterSign rest).map (fun n => -(Int.ofNat n))
  | t => (afterSign t).map Int.ofNat

/-- Model of Python `int(s)` (base 10, no prefix allowed): `none` models a
raised `ValueError`. -/
def pythonIntDec? (l : List Char) : Option Int :=
  match stripWs l with
  | '+' :: rest => (digitsStart Char.isDigit decDigVal 10 rest).map Int.ofNat
  | '-' :: rest =>
    (digitsStart Char.isDigit decDigVal 10 rest).map (fun n => -(Int.ofNat n))
  | t => (digitsStart Char.isDigit decDigVal 10 t).map Int.ofNat

/-- Big-endian value of a hex-digit string, as the claims state it. -/
def hexFold (l : List Char) : Nat :=
  l.foldl (fun a c => 16 * a + hexDigVal c) 0

/-- Decimal value of a digit string (`int` applied to a `\d+` regex group). -/
def decVal (l : List Char) : Nat :=
  l.foldl (fun a c => 10 * a + decDigVal c) 0

/-! ## `str.find`: index of the first occurrence of a substring -/

/-- Index of the first occurrence of `pat` in `l`; `none` models Python's
`-1` result of `str.find`. -/
def findSub (pat : List Char) : List Char → Option Nat
  | [] => if pat.isPrefixOf [] then some 0 else none
  | c :: rest =>
    if pat.isPrefixOf (c :: rest) then some 0
    else (findSub pat rest).map (· + 1)

/-! ## `_parse_stats_value` (devices.py lines 7-14)

`STATS_VALUE_REGEX = re.compile(r'^(\d+)\((\d+)/(\d+)/(\d+)\)')`, used with
`fullmatch`.  `\d+` is greedy and the characters that follow each group
(`(`, `/`, `)`) are not digits, so maximal-munch `takeWhile` is an exact
model of the match.  A `some` result models the tuple of `int(group)` values;
`none` models the `(None, None, None, None)` result. -/

/-- Consume one expected literal character. -/
def expectChar (ch : Char) : List Char → Option (List Char)
  | [] => none
  | c :: rest => if c = ch then some rest else none

def parseStatsValue (s : List Char) : Option (Nat × Nat × Nat × Nat) :=
  if s.takeWhile Char.isDigit = [] then none
  else
    (expectChar '(' (s.dropWhile Char.isDigit)).bind (fun r1 =>
      if r1.takeWhile Char.isDigit = [] then none
      else
        (expectChar '/' (r1.dropWhile Char.isDigit)).bind (fun r3 =>
          if r3.takeWhile Char.isDigit = [] then none
          else
            (expectChar '/' (r3.dropWhile Char.isDigit)).bind (fun r5 =>
              if r5.takeWhile Char.isDigit = [] then none
              else if r5.dropWhile Char.isDigit = [')'] then
                some (decVal (s.takeWhile Char.isDigit), decVal (r1.takeWhile Char.isDigit),
                      decVal (r3.takeWhile Char.isDigit), decVal (r5.takeWhile Char.isDigit))
              else none)))

/-- The shape `"A(B/C/D)"` with `A`,`B`,`C`,`D` nonempty decimal-digit runs,
as the claim states it. -/
def StatsShape (s : List Char) : Prop :=
  ∃ a b c d : List Char,
    a ≠ [] ∧ b ≠ [] ∧ c ≠ [] ∧ d ≠ [] ∧
    (∀ x ∈ a, Char.isDigit x = true) ∧ (∀ x ∈ b, Char.isDigit x = true) ∧
    (∀ x ∈ c, Char.isDigit x = true) ∧ (∀ x ∈ d, Char.isDigit x = true) ∧
    s = a ++ '(' :: (b ++ '/' :: (c ++ '/' :: (d ++ [')'])))

/-! ## `_temp_to_mk` (devices.py lines 17-18)

The source computes `round(1000 * ((int(f) * .1 - 32) * 5 / 9 + 273.15))` in
IEEE-754 double arithmetic.  It is modelled here in exact arithmetic: the
exact rational value of `1000*((n/10 - 32)*5/9 + 273.15)` is
`(500*n + 2298350)/9`; its denominator is odd, so the value is never a
half-integer and Python's round-half-to-even agrees with
`⌊x + 1/2⌋ = (2*(500*n + 2298350) + 9).fdiv 18`.  Properties of the source's
floating-point evaluation itself are outside this embedding. -/

def tempToMk (n : Int) : Int :=
  (2 * (500 * n + 2298350) + 9).fdiv 18

/-! ## DiivooWT11W 3-zone water timer (devices.py lines 310-542) -/

/-- One irrigation zone, as initialised in `DiivooWT11W.__init__`. -/
structure Zone where
  active : Bool
  status : String
  countdown_timer : Int
  duration_setting : Int
deriving DecidableEq, Repr

/-- The decoded state touched by the tag-hex decoder: the three zones and the
`sequence` attribute (unset before the first decode). -/
structure ZonesState where
  z1 : Zone
  z2 : Zone
  z3 : Zone
  seqField : Option (List Char)
deriving DecidableEq, Repr

def initZone : Zone :=
  { active := false, status := "off_idle", countdown_timer := 0, duration_setting := 0 }

def initZones : ZonesState :=
  { z1 := initZone, z2 := initZone, z3 := initZone, seqField := none }

/-- One iteration of the loop in `_parse_port_statuses_precise`: find the
4-char tag (`find`, first occurrence), require 6 chars available, take the
status code `full_pattern[2:]` and update via the `status_map`
(`D821→on`, `D820→off_recent`, `D800→off_idle`); unknown codes are logged and
leave the zone unchanged. -/
def parsePortStatus (hexData pat : List Char) (z : Zone) : Zone :=
  match findSub pat hexData with
  | none => z
  | some pos =>
    if pos + 6 ≤ hexData.length then
      if ((hexData.drop pos).take 6).drop 2 = "D821".data then
        { z with active := true, status := "on" }
      else if ((hexData.drop pos).take 6).drop 2 = "D820".data then
        { z with active := false, status := "off_recent" }
      else if ((hexData.drop pos).take 6).drop 2 = "D800".data then
        { z with active := false, status := "off_idle" }
      else z
    else z

/-- `_parse_port_statuses_precise`: the loop over the three zone tags. -/
def parsePortStatuses (hexData : List Char) (st : ZonesState) : ZonesState :=
  { st with
    z1 := parsePortStatus hexData "19D8".data st.z1
    z2 := parsePortStatus hexData "1AD8".data st.z2
    z3 := parsePortStatus hexData "1BD8".data st.z3 }

/-- One iteration of the loop in `_parse_countdown_timers_precise`: find the
4-char tag, require 12 chars, check `startswith` (always true for a real
occurrence), convert the 8 value chars with `int(·, 16)`; a conversion error
is caught and stores 0. -/
def parseCountdownTimer (hexData pat : List Char) (z : Zone) : Zone :=
  match findSub pat hexData with
  | none => z
  | some pos =>
    if pos + 12 ≤ hexData.length then
      if pat.isPrefixOf ((hexData.drop pos).take 12) then
        match pythonIntHex? (((hexData.drop pos).take 12).drop 4) with
        | some n => { z with countdown_timer := n }
        | none => { z with countdown_timer := 0 }
      else z
    else z

/-- `_parse_countdown_timers_precise`: the loop over the three timer tags. -/
def parseCountdownTimers (hexData : List Char) (st : ZonesState) : ZonesState :=
  { st with
    z1 := parseCountdownTimer hexData "21B7".data st.z1
    z2 := parseCountdownTimer hexData "22B7".data st.z2
    z3 := parseCountdownTimer hexData "23B7".data st.z3 }

/-- One iteration of the loop in `_parse_duration_settings_precise`: find the
4-char tag, require 8 chars, check `startswith`, convert the 4 value chars
with `int(·, 16)`; a conversion error is caught and stores 0. -/
def parseDurationSetting (hexData pat : List Char) (z : Zone) : Zone :=
  match findSub pat hexData with
  | none => z
  | some pos =>
    if pos + 8 ≤ hexData.length then
      if pat.isPrefixOf ((hexData.drop pos).take 8) then
        match pythonIntHex? (((hexData.drop pos).take 8).drop 4) with
        | some n => { z with duration_setting := n }
        | none => { z with duration_setting := 0 }
      else z
    else z

/-- `_parse_duration_settings_precise`: the loop over the three duration tags. -/
def parseDurationSettings (hexData : List Char) (st : ZonesState) : ZonesState :=
  { st with
    z1 := parseDurationSetting hexData "25AD".data st.z1
    z2 := parseDurationSetting hexData "26AD".data st.z2
    z3 := parseDurationSetting hexData "27AD".data st.z3 }

/-- `_parse_hex_status_data`: returns untouched below 50 chars, stores
`sequence = hex_data[2:8]` when at least 8 chars, then runs the three tag
passes in source order. -/
def parseHexStatusData (hexData : List Char) (st : ZonesState) : ZonesState :=
  if hexData.length < 50 then st
  else
    parseDurationSettings hexData (parseCountdownTimers hexData (parsePortStatuses hexData
      (if 8 ≤ hexData.length then { st with seqField := some ((hexData.drop 2).take 6) }
       else st)))

/-- `DiivooWT11W._parse_device_specific_status_d_value`: requires a `'#'`,
splits on it, takes `parts[1]` as the hex stream, and runs
`_parse_hex_status_data` inside a `try`/`except` that logs any exception and
keeps the state.  Every statement of `_parse_hex_status_data` that can raise
(the `int(·, 16)` conversions) is already guarded by a local `try`/`except`
(modelled by the `Option` match in the timer/duration parsers), so the body
is total and the outer handler is never exercised. -/
def diivooParseSpecificE (st : ZonesState) (s : List Char) : Except String ZonesState :=
  if s.contains '#' = false then Except.ok st
  else
    if (s.splitOn '#').length < 2 then Except.ok st
    else
      match (Except.ok (parseHexStatusData ((s.splitOn '#').getD 1 []) st) :
          Except String ZonesState) with
      | Except.ok st1 => Except.ok st1
      | Except.error _ => Except.ok st

/-! ## Claim-side helpers for the tag-hex stream -/

/-- The 4-char status code following the first occurrence of a zone's status
tag, when the stream has room for it. -/
def statusCodeAfter (hexData pat : List Char) : Option (List Char) :=
  match findSub pat hexData with
  | none => none
  | some pos =>
    if pos + 6 ≤ hexData.length then some ((hexData.drop (pos + 2)).take 4)
    else none

/-- The 8 value chars following the first occurrence of a countdown-timer tag,
when the stream has room for them. -/
def timerValueHexAfter (hexData pat : List Char) : Option (List Char) :=
  match findSub pat hexData with
  | none => none
  | some pos =>
    if pos + 12 ≤ hexData.length then some ((hexData.drop (pos + 4)).take 8)
    else none

/-- The 4 value chars following the first occurrence of a duration tag, when
the stream has room for them. -/
def durationValueHexAfter (hexData pat : List Char) : Option (List Char) :=
  match findSub pat hexData with
  | none => none
  | some pos =>
    if pos + 8 ≤ hexData.length then some ((hexData.drop (pos + 4)).take 4)
    else none

/-- The hex part `parts[1]` that `DiivooWT11W._parse_device_specific_status_d_value`
extracts from a payload (empty when there is no `'#'`). -/
def hexPartOf (s : List Char) : List Char :=
  (s.splitOn '#').getD 1 []

/-! ## RainPointDisplayHub (devices.py lines 74-94 and 181-192)

`HomgarDevice._parse_status_d_value` unpacks `val.split(';')` into exactly two
parts (a `ValueError` otherwise), parses the general part
(`unknown_1, rf_rssi, unknown_2 = s.split(',')`, `int(rf_rssi)`), then the
device-specific part.  `RainPointDisplayHub._parse_device_specific_status_d_value`
unpacks at least three comma fields, converts the temperature stats through
`_temp_to_mk` (raising `TypeError` on `int(None)` when the field does not
match the stats pattern), and assigns the humidity and pressure stats tuples
directly, so a non-matching field overwrites them with `None`. -/

/-- The decoded fields of `RainPointDisplayHub` touched by the `Dxx` parser. -/
structure HubFields where
  rf_rssi : Option Int
  temp_mk_current : Option Int
  temp_mk_daily_max : Option Int
  temp_mk_daily_min : Option Int
  temp_trend : Option Int
  hum_current : Option Nat
  hum_daily_max : Option Nat
  hum_daily_min : Option Nat
  hum_trend : Option Nat
  press_pa_current : Option Nat
  press_pa_daily_max : Option Nat
  press_pa_daily_min : Option Nat
  press_trend : Option Nat
deriving DecidableEq, Repr

def initHubFields : HubFields :=
  { rf_rssi := none
    temp_mk_current := none, temp_mk_daily_max := none
    temp_mk_daily_min := none, temp_trend := none
    hum_current := none, hum_daily_max := none
    hum_daily_min := none, hum_trend := none
    press_pa_current := none, press_pa_daily_max := none
    press_pa_daily_min := none, press_trend := none }

/-- `RainPointDisplayHub._parse_device_specific_status_d_value`.  Note that
the source pipes all four temperature stats (including the trend) through
`_temp_to_mk`, and that a humidity or pressure field that fails the stats
pattern is overwritten with `None` by the tuple assignment. -/
def displayHubParseSpecific (st : HubFields) (s : List Char) : Except String HubFields :=
  match s.splitOn ',' with
  | tempStr :: humStr :: pressStr :: _ =>
    match parseStatsValue tempStr with
    | none => Except.error "TypeError: int() argument must be a string, not NoneType"
    | some (t1, t2, t3, t4) =>
      let st1 := { st with
        temp_mk_current := some (tempToMk (Int.ofNat t1))
        temp_mk_daily_max := some (tempToMk (Int.ofNat t2))
        temp_mk_daily_min := some (tempToMk (Int.ofNat t3))
        temp_trend := some (tempToMk (Int.ofNat t4)) }
      let st2 :=
        match parseStatsValue humStr with
        | none => { st1 with
            hum_current := none, hum_daily_max := none
            hum_daily_min := none, hum_trend := none }
        | some (h1, h2, h3, h4) => { st1 with
            hum_current := some h1, hum_daily_max := some h2
            hum_daily_min := some h3, hum_trend := some h4 }
      let st3 :=
        match parseStatsValue (pressStr.drop 2) with
        | none => { st2 with
            press_pa_current := none, press_pa_daily_max := none
            press_pa_daily_min := none, press_trend := none }
        | some (p1, p2, p3, p4) => { st2 with
            press_pa_current := some p1, press_pa_daily_max := some p2
            press_pa_daily_min := some p3, press_trend := some p4 }
      Except.ok st3
  | _ => Except.error "ValueError: not enough values to unpack (expected at least 3)"

/-- `HomgarDevice._parse_general_status_d_value`: exactly three comma fields,
`int` conversion of the middle field into `rf_rssi`. -/
def parseGeneralStatus (st : HubFields) (s : List Char) : Except String HubFields :=
  match s.splitOn ',' with
  | [_, rssiStr, _] =>
    match pythonIntDec? rssiStr with
    | some n => Except.ok { st with rf_rssi := some n }
    | none => Except.error "ValueError: invalid literal for int() with base 10"
  | _ => Except.error "ValueError: not enough values to unpack (expected 3)"

/-- `HomgarDevice._parse_status_d_value` for the `RainPointDisplayHub`
variant: `general_str, specific_str = val.split(';')` (a `ValueError` unless
there is exactly one `';'`), then the general and specific parsers. -/
def displayHubParseStatusDValue (st : HubFields) (val : List Char) : Except String HubFields :=
  match val.splitOn ';' with
  | [generalStr, specificStr] =>
    match parseGeneralStatus st generalStr with
    | Except.ok st1 => displayHubParseSpecific st1 specificStr
    | Except.error e => Except.error e
  | _ => Except.error "ValueError: not enough values to unpack (expected 2)"

/-! ## `HomgarApi.is_subscription_expired` (api.py lines 603-616) -/

/-- The subscription response data, reduced to the `expire` field the check
reads (`self.subscription_data.get('expire')`). -/
structure SubscriptionData where
  expire : Option Int
deriving DecidableEq, Repr

/-- `is_subscription_expired`, with the wall clock (in milliseconds, the unit
the source converts to) passed explicitly.  `if not expire_timestamp` is
Python falsiness: both a missing field and a zero value count as expired. -/
def isSubscriptionExpired (sub : Option SubscriptionData) (nowMs : Int) : Bool :=
  match sub with
  | none => true
  | some d =>
    match d.expire with
    | none => true
    | some e =>
      if e = 0 then true
      else decide (e - nowMs ≤ 300000)

/-! ## `HomgarApi.ensure_logged_in` / `login` (api.py lines 90-106, 218-228) -/

/-- The persisted auth cache: `{email, token, token_expires, refresh_token}`. -/
structure AuthCache where
  email : Option String
  token : Option String
  token_expires : Option Int
  refresh_token : Option String
deriving DecidableEq, Repr

/-- The fields `login` reads from the login response. -/
structure LoginResponse where
  token : Option String
  tokenExpired : Int
  refreshToken : Option String
deriving DecidableEq, Repr

/-- The cache update performed by `login` (api.py lines 103-106); the HTTP
call itself is abstracted into the `resp` argument, and the clock (seconds)
is explicit. -/
def loginCacheUpdate (c : AuthCache) (email : String) (nowS : Int)
    (resp : LoginResponse) : AuthCache :=
  { c with
    email := some email
    token := resp.token
    token_expires := some (nowS + resp.tokenExpired)
    refresh_token := resp.refreshToken }

/-- `ensure_logged_in`: logs in when the cached email differs from the
requested one, or when
`datetime.fromtimestamp(cache.get('token_expires', 0)) - utcnow()` is below
60 minutes (3600 s); otherwise it does nothing.  The boolean records whether
`login` was performed. -/
def ensureLoggedIn (c : AuthCache) (email : String) (nowS : Int)
    (resp : LoginResponse) : AuthCache × Bool :=
  if c.email ≠ some email ∨ (c.token_expires.getD 0) - nowS < 3600 then
    (loginCacheUpdate c email nowS resp, true)
  else (c, false)

/-! ## `HomgarApi.get_devices_for_hid` subdevice filtering (api.py lines 117-179) -/

/-- A subdevice record of the `getDeviceByHid` response, reduced to the two
fields the filtering logic reads. -/
structure SubDeviceData where
  did : Option Int
  modelCode : Option Int
deriving DecidableEq, Repr

/-- The device variants of `MODEL_CODE_MAPPING` (devices.py lines 736-747). -/
inductive DeviceClass
  | rainPointDisplayHub
  | rainPointSoilMoistureSensor
  | rainPointRainSensor
  | rainPointAirSensor
  | rainPoint2ZoneTimer
  | diivooWT11W
  | hwg0538WRF
deriving DecidableEq, Repr, Fintype

/-- `MODEL_CODE_MAPPING`: model code to device class. -/
def modelCodeMapping (code : Int) : Option DeviceClass :=
  if code = 264 then some DeviceClass.rainPointDisplayHub
  else if code = 72 then some DeviceClass.rainPointSoilMoistureSensor
  else if code = 87 then some DeviceClass.rainPointRainSensor
  else if code = 262 then some DeviceClass.rainPointAirSensor
  else if code = 261 then some DeviceClass.rainPoint2ZoneTimer
  else if code = 271 then some DeviceClass.diivooWT11W
  else if code = 256 then some DeviceClass.hwg0538WRF
  else none

/-- `get_device_class` inside `get_devices_for_hid`: unknown or missing model
codes yield `None` after a logged warning. -/
def getDeviceClass (d : SubDeviceData) : Option DeviceClass :=
  match d.modelCode with
  | none => none
  | some c => modelCodeMapping c

/-- The hub classes, whose `__init__` takes a required positional `subdevices`
argument that the subdevice-construction call of `get_devices_for_hid` does
not pass: constructing them as a subdevice raises `TypeError`. -/
def requiresSubdevicesArg : DeviceClass → Bool
  | DeviceClass.rainPointDisplayHub => true
  | DeviceClass.hwg0538WRF => true
  | _ => false

/-- The subdevice loop of `get_devices_for_hid`: skip `did == 1` (display
hub), skip unmapped model codes, construct and append everything else; a
raised constructor error aborts the enumeration. -/
def enumerateSubdevices : List SubDeviceData → Except String (List SubDeviceData)
  | [] => Except.ok []
  | d :: rest =>
    if d.did = some 1 then enumerateSubdevices rest
    else
      match getDeviceClass d with
      | none => enumerateSubdevices rest
      | some cls =>
        if requiresSubdevicesArg cls then
          Except.error "TypeError: __init__() missing 1 required positional argument: subdevices"
        else (enumerateSubdevices rest).map (fun l => d :: l)

/-- Projection used to state results about `Except`-valued parsers. -/
def exceptOk? {α : Type} (e : Except String α) : Option α :=
  match e with
  | Except.ok a => some a
  | Except.error _ => none

deriving instance DecidableEq for Except

set_option maxRecDepth 8192

/-! ## Basic list lemmas -/

theorem takeWhile_append_of_all {p : Char → Bool} (a : List Char) (x : Char)
    (t : List Char) (ha : ∀ c ∈ a, p c = true) (hx : p x = false) :
    (a ++ x :: t).takeWhile p = a ∧ (a ++ x :: t).dropWhile p = x :: t := by
  induction a with
  | nil => simp [List.takeWhile_cons, List.dropWhile_cons, hx]
  | cons c rest ih =>
    have hc : p c = true := ha c (by simp)
    have ih2 := ih (fun y hy => ha y (by simp [hy]))
    simp [List.takeWhile_cons, List.dropWhile_cons, hc, ih2.1, ih2.2]

theorem dropWhile_eq_self_of_all {p : Char → Bool} (l : List Char)
    (h : ∀ c ∈ l, p c = false) : l.dropWhile p = l := by
  cases l with
  | nil => rfl
  | cons c rest => simp [List.dropWhile_cons, h c (by simp)]

theorem findSub_some_isPrefix (pat : List Char) :
    ∀ (l : List Char) (pos : Nat), findSub pat l = some pos →
      pat.isPrefixOf (l.drop pos) = true := by
  intro l
  induction l with
  | nil =>
    intro pos h
    rw [findSub] at h
    by_cases hp : pat.isPrefixOf ([] : List Char) = true
    · simp [hp] at h
      subst h
      simpa using hp
    · simp [Bool.eq_false_iff.mpr hp] at h
  | cons c rest ih =>
    intro pos h
    rw [findSub] at h
    by_cases hp : pat.isPrefixOf (c :: rest) = true
    · rw [if_pos hp] at h
      have h0 : pos = 0 := (Option.some.injEq _ _).mp h.symm
      subst h0
      simpa using hp
    · rw [if_neg hp] at h
      rw [Option.map_eq_some'] at h
      obtain ⟨p0, hp0, hpos⟩ := h
      subst hpos
      simpa using ih p0 hp0

theorem isPrefixOf_take {p l : List Char} {n : Nat}
    (h : p.isPrefixOf l = true) (hn : p.length ≤ n) :
    p.isPrefixOf (l.take n) = true := by
  rw [List.isPrefixOf_iff_prefix] at h ⊢
  exact List.prefix_take_iff.mpr ⟨h, hn⟩

theorem drop_take_drop (l : List Char) (pos a b : Nat) :
    ((l.drop pos).take (a + b)).drop a = (l.drop (pos + a)).take b := by
  rw [List.drop_take, List.drop_drop]
  congr 1
  omega

/-! ## Character classification lemmas -/

theorem isHexDig_ne_of {c x : Char} (h : isHexDig c = true)
    (hx : isHexDig x = false) : c ≠ x := by
  intro he
  subst he
  rw [h] at hx
  exact Bool.noConfusion hx

theorem pyWs_imp_not_hex {c : Char} (h : pyWs c = true) : isHexDig c = false := by
  unfold pyWs at h
  simp only [Bool.or_eq_true, decide_eq_true_eq] at h
  rcases h with ((((h | h) | h) | h) | h) | h <;> subst h <;> decide

theorem pyWs_false_of_isHexDig {c : Char} (h : isHexDig c = true) : pyWs c = false := by
  cases hpw : pyWs c with
  | false => rfl
  | true =>
    have hc := pyWs_imp_not_hex hpw
    rw [h] at hc
    exact Bool.noConfusion hc

/-! ## `pythonIntHex?` on pure hex-digit strings -/

theorem digitsGo_hex_of_all (l : List Char) (acc : Nat)
    (h : ∀ c ∈ l, isHexDig c = true) :
    digitsGo isHexDig hexDigVal 16 acc l
      = some (l.foldl (fun a c => 16 * a + hexDigVal c) acc) := by
  induction l generalizing acc with
  | nil => simp [digitsGo]
  | cons c rest ih =>
    have hc : isHexDig c = true := h c (by simp)
    have hne : c ≠ '_' := isHexDig_ne_of hc (by decide)
    rw [digitsGo.eq_def]
    simp only [if_neg hne, hc, if_true, if_pos]
    rw [ih _ (fun x hx => h x (by simp [hx]))]
    simp [List.foldl_cons]

theorem digitsStart_hex_of_all (l : List Char) (hne : l ≠ [])
    (h : ∀ c ∈ l, isHexDig c = true) :
    digitsStart isHexDig hexDigVal 16 l = some (hexFold l) := by
  cases l with
  | nil => exact absurd rfl hne
  | cons c rest =>
    have hc : isHexDig c = true := h c (by simp)
    rw [digitsStart]
    simp only [hc, if_pos]
    rw [digitsGo_hex_of_all _ _ (fun x hx => h x (by simp [hx]))]
    have hz : 16 * 0 + hexDigVal c = hexDigVal c := by omega
    simp [hexFold, List.foldl_cons, hz]

theorem stripWs_of_all_hex (l : List Char) (h : ∀ c ∈ l, isHexDig c = true) :
    stripWs l = l := by
  have hall : ∀ c ∈ l, pyWs c = false := fun c hc => pyWs_false_of_isHexDig (h c hc)
  unfold stripWs
  rw [dropWhile_eq_self_of_all l hall]
  rw [dropWhile_eq_self_of_all l.reverse (fun c hc => hall c (List.mem_reverse.mp hc))]
  exact List.reverse_reverse l

theorem pythonIntHex_of_all_hex (l : List Char) (hne : l ≠ [])
    (h : ∀ c ∈ l, isHexDig c = true) :
    pythonIntHex? l = some (Int.ofNat (hexFold l)) := by
  obtain ⟨c, rest, rfl⟩ : ∃ c rest, l = c :: rest := by
    cases l with
    | nil => exact absurd rfl hne
    | cons c rest => exact ⟨c, rest, rfl⟩
  have hc : isHexDig c = true := h c (by simp)
  have hstrip : stripWs (c :: rest) = c :: rest := stripWs_of_all_hex _ h
  have hplus : c ≠ '+' := isHexDig_ne_of hc (by decide)
  have hminus : c ≠ '-' := isHexDig_ne_of hc (by decide)
  have hafter1 : afterSign (c :: rest) = hexDigitsPart false (c :: rest) := by
    rw [afterSign.eq_def]
    split
    · rename_i x rest2 heq
      rw [List.cons.injEq] at heq
      obtain ⟨hc0, hrest⟩ := heq
      have hx : isHexDig x = true := by
        refine h x ?_
        rw [hrest]
        simp
      rw [if_neg]
      · rw [hc0, hrest]
      · rintro (hxx | hxx) <;> subst hxx <;> exact absurd hx (by decide)
    · rfl
  have hpart : hexDigitsPart false (c :: rest) = digitsStart isHexDig hexDigVal 16 (c :: rest) := by
    rw [hexDigitsPart.eq_def]
    split
    · rename_i r heq
      rw [List.cons.injEq] at heq
      exact absurd heq.1 (isHexDig_ne_of hc (by decide))
    · rfl
  have hafter : afterSign (c :: rest) = some (hexFold (c :: rest)) := by
    rw [hafter1, hpart, digitsStart_hex_of_all _ (by simp) h]
  unfold pythonIntHex?
  rw [hstrip]
  split
  · rename_i r heq
    rw [List.cons.injEq] at heq
    exact absurd heq.1 hplus
  · rename_i r heq
    rw [List.cons.injEq] at heq
    exact absurd heq.1 hminus
  · rw [hafter]
    rfl

/-! ## Behaviour of the per-zone tag parsers -/

theorem parsePortStatus_spec (hexData pat : List Char) (z : Zone) :
    (statusCodeAfter hexData pat = some "D821".data →
      (parsePortStatus hexData pat z).status = "on"
        ∧ (parsePortStatus hexData pat z).active = true)
  ∧ (statusCodeAfter hexData pat = some "D820".data →
      (parsePortStatus hexData pat z).status = "off_recent"
        ∧ (parsePortStatus hexData pat z).active = false)
  ∧ (statusCodeAfter hexData pat = some "D800".data →
      (parsePortStatus hexData pat z).status = "off_idle"
        ∧ (parsePortStatus hexData pat z).active = false)
  ∧ ((∀ code, statusCodeAfter hexData pat = some code →
        code ≠ "D821".data ∧ code ≠ "D820".data ∧ code ≠ "D800".data) →
      (parsePortStatus hexData pat z).status = z.status
        ∧ (parsePortStatus hexData pat z).active = z.active) := by
  unfold parsePortStatus statusCodeAfter
  cases hfind : findSub pat hexData with
  | none => simp
  | some pos =>
    by_cases hlen : pos + 6 ≤ hexData.length
    · simp only [if_pos hlen]
      have hbr : ((hexData.drop pos).take 6).drop 2 = (hexData.drop (pos + 2)).take 4 := by
        simpa using drop_take_drop hexData pos 2 4
      rw [hbr]
      refine ⟨?_, ?_, ?_, ?_⟩
      · intro hsome
        have hcode := Option.some.inj hsome
        rw [if_pos hcode]
        exact ⟨rfl, rfl⟩
      · intro hsome
        have hcode := Option.some.inj hsome
        rw [if_neg (by rw [hcode]; decide), if_pos hcode]
        exact ⟨rfl, rfl⟩
      · intro hsome
        have hcode := Option.some.inj hsome
        rw [if_neg (by rw [hcode]; decide), if_neg (by rw [hcode]; decide), if_pos hcode]
        exact ⟨rfl, rfl⟩
      · intro hall
        obtain ⟨h1, h2, h3⟩ := hall _ rfl
        rw [if_neg h1, if_neg h2, if_neg h3]
        exact ⟨rfl, rfl⟩
    · simp [hlen]

theorem parsePortStatus_absent (hexData pat : List Char) (z : Zone)
    (h : findSub pat hexData = none) : parsePortStatus hexData pat z = z := by
  unfold parsePortStatus
  rw [h]

theorem parseCountdownTimer_found (hexData pat : List Char) (z : Zone) (pos : Nat)
    (hfind : findSub pat hexData = some pos) :
    parseCountdownTimer hexData pat z =
      (if pos + 12 ≤ hexData.length then
        if pat.isPrefixOf ((hexData.drop pos).take 12) then
          match pythonIntHex? (((hexData.drop pos).take 12).drop 4) with
          | some n => { z with countdown_timer := n }
          | none => { z with countdown_timer := 0 }
        else z
      else z) := by
  unfold parseCountdownTimer
  rw [hfind]

theorem timerValueHexAfter_found (hexData pat : List Char) (pos : Nat)
    (hfind : findSub pat hexData = some pos) :
    timerValueHexAfter hexData pat =
      (if pos + 12 ≤ hexData.length then some ((hexData.drop (pos + 4)).take 8) else none) := by
  unfold timerValueHexAfter
  rw [hfind]

theorem parseCountdownTimer_spec (hexData pat : List Char) (z : Zone)
    (hplen : pat.length = 4) (v : List Char)
    (hv : timerValueHexAfter hexData pat = some v) :
    ((∀ c ∈ v, isHexDig c = true) →
      (parseCountdownTimer hexData pat z).countdown_timer = Int.ofNat (hexFold v))
  ∧ (pythonIntHex? v = none →
      (parseCountdownTimer hexData pat z).countdown_timer = 0) := by
  cases hfind : findSub pat hexData with
  | none => unfold timerValueHexAfter at hv; rw [hfind] at hv; exact absurd hv (by simp)
  | some pos =>
    rw [timerValueHexAfter_found hexData pat pos hfind] at hv
    rw [parseCountdownTimer_found hexData pat z pos hfind]
    by_cases hlen : pos + 12 ≤ hexData.length
    · rw [if_pos hlen] at hv
      have hveq := Option.some.inj hv
      subst hveq
      rw [if_pos hlen]
      have hpre : pat.isPrefixOf ((hexData.drop pos).take 12) = true :=
        isPrefixOf_take (findSub_some_isPrefix pat hexData pos hfind) (by omega)
      rw [if_pos hpre]
      have hbr : ((hexData.drop pos).take 12).drop 4 = (hexData.drop (pos + 4)).take 8 := by
        simpa using drop_take_drop hexData pos 4 8
      rw [hbr]
      constructor
      · intro hhex
        have hlen8 : ((hexData.drop (pos + 4)).take 8).length = 8 := by
          simp only [List.length_take, List.length_drop]
          omega
        have hnn : (hexData.drop (pos + 4)).take 8 ≠ [] := by
          intro h0
          rw [h0] at hlen8
          exact absurd hlen8 (by decide)
        rw [pythonIntHex_of_all_hex _ hnn hhex]
      · intro hnone
        rw [hnone]
    · rw [if_neg hlen] at hv
      exact absurd hv (by simp)

theorem parseCountdownTimer_absent (hexData pat : List Char) (z : Zone)
    (h : findSub pat hexData = none) : parseCountdownTimer hexData pat z = z := by
  unfold parseCountdownTimer
  rw [h]

theorem parseDurationSetting_found (hexData pat : List Char) (z : Zone) (pos : Nat)
    (hfind : findSub pat hexData = some pos) :
    parseDurationSetting hexData pat z =
      (if pos + 8 ≤ hexData.length then
        if pat.isPrefixOf ((hexData.drop pos).take 8) then
          match pythonIntHex? (((hexData.drop pos).take 8).drop 4) with
          | some n => { z with duration_setting := n }
          | none => { z with duration_setting := 0 }
        else z
      else z) := by
  unfold parseDurationSetting
  rw [hfind]

theorem durationValueHexAfter_found (hexData pat : List Char) (pos : Nat)
    (hfind : findSub pat hexData = some pos) :
    durationValueHexAfter hexData pat =
      (if pos + 8 ≤ hexData.length then some ((hexData.drop (pos + 4)).take 4) else none) := by
  unfold durationValueHexAfter
  rw [hfind]

theorem parseDurationSetting_spec (hexData pat : List Char) (z : Zone)
    (hplen : pat.length = 4) (v : List Char)
    (hv : durationValueHexAfter hexData pat = some v) :
    ((∀ c ∈ v, isHexDig c = true) →
      (parseDurationSetting hexData pat z).duration_setting = Int.ofNat (hexFold v))
  ∧ (pythonIntHex? v = none →
      (parseDurationSetting hexData pat z).duration_setting = 0) := by
  cases hfind : findSub pat hexData with
  | none => unfold durationValueHexAfter at hv; rw [hfind] at hv; exact absurd hv (by simp)
  | some pos =>
    rw [durationValueHexAfter_found hexData pat pos hfind] at hv
    rw [parseDurationSetting_found hexData pat z pos hfind]
    by_cases hlen : pos + 8 ≤ hexData.length
    · rw [if_pos hlen] at hv
      have hveq := Option.some.inj hv
      subst hveq
      rw [if_pos hlen]
      have hpre : pat.isPrefixOf ((hexData.drop pos).take 8) = true :=
        isPrefixOf_take (findSub_some_isPrefix pat hexData pos hfind) (by omega)
      rw [if_pos hpre]
      have hbr : ((hexData.drop pos).take 8).drop 4 = (hexData.drop (pos + 4)).take 4 := by
        simpa using drop_take_drop hexData pos 4 4
      rw [hbr]
      constructor
      · intro hhex
        have hlen4 : ((hexData.drop (pos + 4)).take 4).length = 4 := by
          simp only [List.length_take, List.length_drop]
          omega
        have hnn : (hexData.drop (pos + 4)).take 4 ≠ [] := by
          intro h0
          rw [h0] at hlen4
          exact absurd hlen4 (by decide)
        rw [pythonIntHex_of_all_hex _ hnn hhex]
      · intro hnone
        rw [hnone]
    · rw [if_neg hlen] at hv
      exact absurd hv (by simp)

theorem parseDurationSetting_absent (hexData pat : List Char) (z : Zone)
    (h : findSub pat hexData = none) : parseDurationSetting hexData pat z = z := by
  unfold parseDurationSetting
  rw [h]

/-! ## `parseStatsValue`: forward evaluation and inversion -/

theorem expectChar_cons_self (ch : Char) (t : List Char) :
    expectChar ch (ch :: t) = some t := by
  simp [expectChar]

theorem expectChar_eq_some {ch : Char} {l r : List Char}
    (h : expectChar ch l = some r) : l = ch :: r := by
  cases l with
  | nil => exact absurd h (by simp [expectChar])
  | cons c rest =>
    simp only [expectChar] at h
    by_cases hc : c = ch
    · rw [if_pos hc] at h
      rw [hc, Option.some.inj h]
    · rw [if_neg hc] at h
      exact absurd h (by simp)

theorem parseStatsValue_of_shape (a b c d : List Char)
    (hna : a ≠ []) (hnb : b ≠ []) (hnc : c ≠ []) (hnd : d ≠ [])
    (hda : ∀ x ∈ a, Char.isDigit x = true) (hdb : ∀ x ∈ b, Char.isDigit x = true)
    (hdc : ∀ x ∈ c, Char.isDigit x = true) (hdd : ∀ x ∈ d, Char.isDigit x = true) :
    parseStatsValue (a ++ '(' :: (b ++ '/' :: (c ++ '/' :: (d ++ [')'])))) =
      some (decVal a, decVal b, decVal c, decVal d) := by
  have hpl : Char.isDigit '(' = false := by decide
  have hsl : Char.isDigit '/' = false := by decide
  have hcl : Char.isDigit ')' = false := by decide
  have h1 := takeWhile_append_of_all a '(' (b ++ '/' :: (c ++ '/' :: (d ++ [')']))) hda hpl
  have h2 := takeWhile_append_of_all b '/' (c ++ '/' :: (d ++ [')'])) hdb hsl
  have h3 := takeWhile_append_of_all c '/' (d ++ [')']) hdc hsl
  have h4 := takeWhile_append_of_all d ')' [] hdd hcl
  unfold parseStatsValue
  rw [h1.1, h1.2, if_neg hna, expectChar_cons_self, Option.some_bind]
  rw [h2.1, h2.2, if_neg hnb, expectChar_cons_self, Option.some_bind]
  rw [h3.1, h3.2, if_neg hnc, expectChar_cons_self, Option.some_bind]
  rw [h4.1, h4.2, if_neg hnd, if_pos rfl]

theorem parseStatsValue_some_shape (s : List Char) (t : Nat × Nat × Nat × Nat)
    (h : parseStatsValue s = some t) : StatsShape s := by
  unfold parseStatsValue at h
  by_cases hna : s.takeWhile Char.isDigit = []
  · rw [if_pos hna] at h
    exact absurd h (by simp)
  · rw [if_neg hna, Option.bind_eq_some] at h
    obtain ⟨r1, hr1, h⟩ := h
    by_cases hnb : r1.takeWhile Char.isDigit = []
    · rw [if_pos hnb] at h
      exact absurd h (by simp)
    · rw [if_neg hnb, Option.bind_eq_some] at h
      obtain ⟨r3, hr3, h⟩ := h
      by_cases hnc : r3.takeWhile Char.isDigit = []
      · rw [if_pos hnc] at h
        exact absurd h (by simp)
      · rw [if_neg hnc, Option.bind_eq_some] at h
        obtain ⟨r5, hr5, h⟩ := h
        by_cases hnd : r5.takeWhile Char.isDigit = []
        · rw [if_pos hnd] at h
          exact absurd h (by simp)
        · rw [if_neg hnd] at h
          by_cases hcl : r5.dropWhile Char.isDigit = [')']
          · refine ⟨s.takeWhile Char.isDigit, r1.takeWhile Char.isDigit,
              r3.takeWhile Char.isDigit, r5.takeWhile Char.isDigit,
              hna, hnb, hnc, hnd,
              (fun x hx => List.mem_takeWhile_imp hx),
              (fun x hx => List.mem_takeWhile_imp hx),
              (fun x hx => List.mem_takeWhile_imp hx),
              (fun x hx => List.mem_takeWhile_imp hx), ?_⟩
            have hs : s = s.takeWhile Char.isDigit ++ s.dropWhile Char.isDigit :=
              (List.takeWhile_append_dropWhile _ _).symm
            have hs1 : s.dropWhile Char.isDigit = '(' :: r1 := expectChar_eq_some hr1
            have hr1e : r1 = r1.takeWhile Char.isDigit ++ r1.dropWhile Char.isDigit :=
              (List.takeWhile_append_dropWhile _ _).symm
            have hs2 : r1.dropWhile Char.isDigit = '/' :: r3 := expectChar_eq_some hr3
            have hr3e : r3 = r3.takeWhile Char.isDigit ++ r3.dropWhile Char.isDigit :=
              (List.takeWhile_append_dropWhile _ _).symm
            have hs3 : r3.dropWhile Char.isDigit = '/' :: r5 := expectChar_eq_some hr5
            have hr5e : r5 = r5.takeWhile Char.isDigit ++ r5.dropWhile Char.isDigit :=
              (List.takeWhile_append_dropWhile _ _).symm
            calc s = s.takeWhile Char.isDigit ++ s.dropWhile Char.isDigit := hs
            _ = s.takeWhile Char.isDigit ++ '(' :: r1 := by rw [hs1]
            _ = s.takeWhile Char.isDigit ++ '(' ::
                  (r1.takeWhile Char.isDigit ++ '/' :: r3) := by
                rw [← hs2, List.takeWhile_append_dropWhile]
            _ = s.takeWhile Char.isDigit ++ '(' :: (r1.takeWhile Char.isDigit ++ '/' ::
                  (r3.takeWhile Char.isDigit ++ '/' :: r5)) := by
                rw [← hs3, List.takeWhile_append_dropWhile]
            _ = s.takeWhile Char.isDigit ++ '(' :: (r1.takeWhile Char.isDigit ++ '/' ::
                  (r3.takeWhile Char.isDigit ++ '/' ::
                    (r5.takeWhile Char.isDigit ++ [')']))) := by
                rw [← hcl, List.takeWhile_append_dropWhile]
          · rw [if_neg hcl] at h
            exact absurd h (by simp)

theorem statsShape_mem_paren {s : List Char} (h : StatsShape s) : '(' ∈ s := by
  obtain ⟨a, b, c, d, _, _, _, _, _, _, _, _, heq⟩ := h
  rw [heq]
  simp

/-! ## `enumerateSubdevices`: equations for one loop step -/

theorem enumerateSubdevices_skip_did (d : SubDeviceData) (rest : List SubDeviceData)
    (h1 : d.did = some 1) :
    enumerateSubdevices (d :: rest) = enumerateSubdevices rest := by
  rw [enumerateSubdevices]
  rw [if_pos h1]

theorem enumerateSubdevices_skip_unmapped (d : SubDeviceData) (rest : List SubDeviceData)
    (h1 : ¬ d.did = some 1) (hcls : getDeviceClass d = none) :
    enumerateSubdevices (d :: rest) = enumerateSubdevices rest := by
  rw [enumerateSubdevices]
  rw [if_neg h1, hcls]

theorem enumerateSubdevices_cons_class (d : SubDeviceData) (rest : List SubDeviceData)
    (cls : DeviceClass) (h1 : ¬ d.did = some 1) (hcls : getDeviceClass d = some cls) :
    enumerateSubdevices (d :: rest) =
      (if requiresSubdevicesArg cls then
        Except.error "TypeError: __init__() missing 1 required positional argument: subdevices"
      else (enumerateSubdevices rest).map (fun l => d :: l)) := by
  rw [enumerateSubdevices]
  rw [if_neg h1, hcls]

/-! ## Claim theorems -/

/-- Hex stream from the observed example in the `DiivooWT11W` docstring,
containing `19D821`, `1AD800` and `1BD800`. -/
def exampleHexStream : List Char :=
  "17E19F0019D8211AD8001BD8001D201E201F2018DC0121B79AE7DE1522B70000000023B70000000025ADDC0526AD000027AD0000".data

/-- C1: in the DiivooWT11W tag-hex decoder each zone's status tag (`19D8`,
`1AD8`, `1BD8` for zones 1-3) is searched anywhere in the stream
independently; when the tag is present and the status code following it is
`D821` the zone becomes status `"on"` / active, with `D820` it becomes
`"off_recent"`, with `D800` it becomes `"off_idle"`; when the tag is absent,
or the status code following it is none of these three, the zone's status and
active fields keep their previous values.  In particular the example stream
containing `19D821`, `1AD800`, `1BD800` decodes to zone1 on, zone2 off_idle,
zone3 off_idle. -/
theorem c1_zone_status_decode (hexData : List Char) (st : ZonesState) :
    ((statusCodeAfter hexData "19D8".data = some "D821".data →
        (parsePortStatuses hexData st).z1.status = "on"
          ∧ (parsePortStatuses hexData st).z1.active = true)
      ∧ (statusCodeAfter hexData "19D8".data = some "D820".data →
        (parsePortStatuses hexData st).z1.status = "off_recent"
          ∧ (parsePortStatuses hexData st).z1.active = false)
      ∧ (statusCodeAfter hexData "19D8".data = some "D800".data →
        (parsePortStatuses hexData st).z1.status = "off_idle"
          ∧ (parsePortStatuses hexData st).z1.active = false)
      ∧ ((∀ code, statusCodeAfter hexData "19D8".data = some code →
            code ≠ "D821".data ∧ code ≠ "D820".data ∧ code ≠ "D800".data) →
        (parsePortStatuses hexData st).z1.status = st.z1.status
          ∧ (parsePortStatuses hexData st).z1.active = st.z1.active))
  ∧ ((statusCodeAfter hexData "1AD8".data = some "D821".data →
        (parsePortStatuses hexData st).z2.status = "on"
          ∧ (parsePortStatuses hexData st).z2.active = true)
      ∧ (statusCodeAfter hexData "1AD8".data = some "D820".data →
        (parsePortStatuses hexData st).z2.status = "off_recent"
          ∧ (parsePortStatuses hexData st).z2.active = false)
      ∧ (statusCodeAfter hexData "1AD8".data = some "D800".data →
        (parsePortStatuses hexData st).z2.status = "off_idle"
          ∧ (parsePortStatuses hexData st).z2.active = false)
      ∧ ((∀ code, statusCodeAfter hexData "1AD8".data = some code →
            code ≠ "D821".data ∧ code ≠ "D820".data ∧ code ≠ "D800".data) →
        (parsePortStatuses hexData st).z2.status = st.z2.status
          ∧ (parsePortStatuses hexData st).z2.active = st.z2.active))
  ∧ ((statusCodeAfter hexData "1BD8".data = some "D821".data →
        (parsePortStatuses hexData st).z3.status = "on"
          ∧ (parsePortStatuses hexData st).z3.active = true)
      ∧ (statusCodeAfter hexData "1BD8".data = some "D820".data →
        (parsePortStatuses hexData st).z3.status = "off_recent"
          ∧ (parsePortStatuses hexData st).z3.active = false)
      ∧ (statusCodeAfter hexData "1BD8".data = some "D800".data →
        (parsePortStatuses hexData st).z3.status = "off_idle"
          ∧ (parsePortStatuses hexData st).z3.active = false)
      ∧ ((∀ code, statusCodeAfter hexData "1BD8".data = some code →
            code ≠ "D821".data ∧ code ≠ "D820".data ∧ code ≠ "D800".data) →
        (parsePortStatuses hexData st).z3.status = st.z3.status
          ∧ (parsePortStatuses hexData st).z3.active = st.z3.active))
  ∧ ((parseHexStatusData exampleHexStream initZones).z1.status = "on"
      ∧ (parseHexStatusData exampleHexStream initZones).z1.active = true
      ∧ (parseHexStatusData exampleHexStream initZones).z2.status = "off_idle"
      ∧ (parseHexStatusData exampleHexStream initZones).z3.status = "off_idle") := by
  refine ⟨?_, ?_, ?_, ?_⟩
  · exact parsePortStatus_spec hexData "19D8".data st.z1
  · exact parsePortStatus_spec hexData "1AD8".data st.z2
  · exact parsePortStatus_spec hexData "1BD8".data st.z3
  · exact ⟨by decide, by decide, by decide, by decide⟩

theorem c1_zone_status_decode_witness :
    (parsePortStatuses "19D8211AD8201BD800".data initZones).z1.status = "on"
  ∧ (parsePortStatuses "19D8211AD8201BD800".data initZones).z1.active = true
  ∧ (parsePortStatuses "19D8211AD8201BD800".data initZones).z2.status = "off_recent"
  ∧ (parsePortStatuses "19D8211AD8201BD800".data initZones).z3.status = "off_idle" := by
  have h := c1_zone_status_decode "19D8211AD8201BD800".data initZones
  exact ⟨(h.1.1 (by decide)).1, (h.1.1 (by decide)).2,
    (h.2.1.2.1 (by decide)).1, (h.2.2.1.2.2.1 (by decide)).1⟩

/-- C4 (amended): in the DiivooWT11W tag-hex passes, a zone whose tag is
absent from the stream keeps its previous value for the corresponding field
(status/active for the status pass, countdown timer and duration setting for
the timer passes); however `RainPointDisplayHub` overwrites its humidity (and
pressure) stats fields with `None` when the corresponding comma field is
present but does not match the stats pattern (see the counterexample). -/
theorem c4_absent_tag_frame (hexData : List Char) (st : ZonesState) :
    (findSub "19D8".data hexData = none → (parsePortStatuses hexData st).z1 = st.z1)
  ∧ (findSub "1AD8".data hexData = none → (parsePortStatuses hexData st).z2 = st.z2)
  ∧ (findSub "1BD8".data hexData = none → (parsePortStatuses hexData st).z3 = st.z3)
  ∧ (findSub "21B7".data hexData = none → (parseCountdownTimers hexData st).z1 = st.z1)
  ∧ (findSub "22B7".data hexData = none → (parseCountdownTimers hexData st).z2 = st.z2)
  ∧ (findSub "23B7".data hexData = none → (parseCountdownTimers hexData st).z3 = st.z3)
  ∧ (findSub "25AD".data hexData = none → (parseDurationSettings hexData st).z1 = st.z1)
  ∧ (findSub "26AD".data hexData = none → (parseDurationSettings hexData st).z2 = st.z2)
  ∧ (findSub "27AD".data hexData = none → (parseDurationSettings hexData st).z3 = st.z3) :=
  ⟨fun h => parsePortStatus_absent hexData _ st.z1 h,
   fun h => parsePortStatus_absent hexData _ st.z2 h,
   fun h => parsePortStatus_absent hexData _ st.z3 h,
   fun h => parseCountdownTimer_absent hexData _ st.z1 h,
   fun h => parseCountdownTimer_absent hexData _ st.z2 h,
   fun h => parseCountdownTimer_absent hexData _ st.z3 h,
   fun h => parseDurationSetting_absent hexData _ st.z1 h,
   fun h => parseDurationSetting_absent hexData _ st.z2 h,
   fun h => parseDurationSetting_absent hexData _ st.z3 h⟩

theorem c4_absent_tag_frame_witness :
    (parsePortStatuses "FFFF".data initZones).z1 = initZones.z1
  ∧ (parsePortStatuses "FFFF".data initZones).z2 = initZones.z2
  ∧ (parsePortStatuses "FFFF".data initZones).z3 = initZones.z3
  ∧ (parseCountdownTimers "FFFF".data initZones).z1 = initZones.z1
  ∧ (parseCountdownTimers "FFFF".data initZones).z2 = initZones.z2
  ∧ (parseCountdownTimers "FFFF".data initZones).z3 = initZones.z3
  ∧ (parseDurationSettings "FFFF".data initZones).z1 = initZones.z1
  ∧ (parseDurationSettings "FFFF".data initZones).z2 = initZones.z2
  ∧ (parseDurationSettings "FFFF".data initZones).z3 = initZones.z3 := by
  have h := c4_absent_tag_frame "FFFF".data initZones
  exact ⟨h.1 (by decide), h.2.1 (by decide), h.2.2.1 (by decide),
    h.2.2.2.1 (by decide), h.2.2.2.2.1 (by decide), h.2.2.2.2.2.1 (by decide),
    h.2.2.2.2.2.2.1 (by decide), h.2.2.2.2.2.2.2.1 (by decide),
    h.2.2.2.2.2.2.2.2 (by decide)⟩

/-- Previous decoded state used in the C4 counterexample: humidity stats are
already known. -/
def c4PrevHub : HubFields :=
  { initHubFields with
    hum_current := some 52, hum_daily_max := some 64
    hum_daily_min := some 50, hum_trend := some 1 }

/-- C4 counterexample: a decode pass of `RainPointDisplayHub` over the payload
`"781(781/723/1),garbage,P=10213(10222/10205/1)"` (temperature and pressure
well-formed, humidity field garbled) succeeds and overwrites the previously
known `hum_current = 52` with `None`, contradicting the claim that no field is
overwritten with `None` as a result of a garbled payload. -/
theorem c4_display_hub_nulls_cex :
    c4PrevHub.hum_current = some 52
  ∧ (exceptOk? (displayHubParseSpecific c4PrevHub
      "781(781/723/1),garbage,P=10213(10222/10205/1)".data)).map HubFields.hum_current
      = some none := by decide

/-- C5: in the DiivooWT11W tag-hex decoder, when zone n's countdown-timer tag
(`21B7`/`22B7`/`23B7`) is found with at least 8 value chars in range, and
they are hex digits, the countdown timer becomes their big-endian value; when
they fail Python's `int(·, 16)`, it becomes 0.  Likewise for the duration
tags (`25AD`/`26AD`/`27AD`) with 4 value chars.  In particular
`21B79AE7DE15` yields countdown timer `0x9AE7DE15` and `25ADDC05` yields
duration setting `0xDC05`. -/
theorem c5_timer_duration_decode (hexData : List Char) (st : ZonesState) :
    (∀ v, timerValueHexAfter hexData "21B7".data = some v →
      ((∀ c ∈ v, isHexDig c = true) →
        (parseCountdownTimers hexData st).z1.countdown_timer = Int.ofNat (hexFold v))
      ∧ (pythonIntHex? v = none → (parseCountdownTimers hexData st).z1.countdown_timer = 0))
  ∧ (∀ v, timerValueHexAfter hexData "22B7".data = some v →
      ((∀ c ∈ v, isHexDig c = true) →
        (parseCountdownTimers hexData st).z2.countdown_timer = Int.ofNat (hexFold v))
      ∧ (pythonIntHex? v = none → (parseCountdownTimers hexData st).z2.countdown_timer = 0))
  ∧ (∀ v, timerValueHexAfter hexData "23B7".data = some v →
      ((∀ c ∈ v, isHexDig c = true) →
        (parseCountdownTimers hexData st).z3.countdown_timer = Int.ofNat (hexFold v))
      ∧ (pythonIntHex? v = none → (parseCountdownTimers hexData st).z3.countdown_timer = 0))
  ∧ (∀ v, durationValueHexAfter hexData "25AD".data = some v →
      ((∀ c ∈ v, isHexDig c = true) →
        (parseDurationSettings hexData st).z1.duration_setting = Int.ofNat (hexFold v))
      ∧ (pythonIntHex? v = none → (parseDurationSettings hexData st).z1.duration_setting = 0))
  ∧ (∀ v, durationValueHexAfter hexData "26AD".data = some v →
      ((∀ c ∈ v, isHexDig c = true) →
        (parseDurationSettings hexData st).z2.duration_setting = Int.ofNat (hexFold v))
      ∧ (pythonIntHex? v = none → (parseDurationSettings hexData st).z2.duration_setting = 0))
  ∧ (∀ v, durationValueHexAfter hexData "27AD".data = some v →
      ((∀ c ∈ v, isHexDig c = true) →
        (parseDurationSettings hexData st).z3.duration_setting = Int.ofNat (hexFold v))
      ∧ (pythonIntHex? v = none → (parseDurationSettings hexData st).z3.duration_setting = 0))
  ∧ ((parseCountdownTimers "21B79AE7DE15".data initZones).z1.countdown_timer = 0x9AE7DE15
      ∧ (parseDurationSettings "25ADDC05".data initZones).z1.duration_setting = 0xDC05) := by
  refine ⟨?_, ?_, ?_, ?_, ?_, ?_, ⟨by decide, by decide⟩⟩
  · exact fun v hv => parseCountdownTimer_spec hexData "21B7".data st.z1 (by decide) v hv
  · exact fun v hv => parseCountdownTimer_spec hexData "22B7".data st.z2 (by decide) v hv
  · exact fun v hv => parseCountdownTimer_spec hexData "23B7".data st.z3 (by decide) v hv
  · exact fun v hv => parseDurationSetting_spec hexData "25AD".data st.z1 (by decide) v hv
  · exact fun v hv => parseDurationSetting_spec hexData "26AD".data st.z2 (by decide) v hv
  · exact fun v hv => parseDurationSetting_spec hexData "27AD".data st.z3 (by decide) v hv

theorem c5_timer_duration_decode_witness :
    (parseCountdownTimers "21B79AE7DE15".data initZones).z1.countdown_timer
      = Int.ofNat (hexFold "9AE7DE15".data)
  ∧ (parseDurationSettings "25ADDC05".data initZones).z1.duration_setting
      = Int.ofNat (hexFold "DC05".data) :=
  ⟨((c5_timer_duration_decode "21B79AE7DE15".data initZones).1 "9AE7DE15".data
      (by decide)).1 (by decide),
   ((c5_timer_duration_decode "25ADDC05".data initZones).2.2.2.1 "DC05".data
      (by decide)).1 (by decide)⟩

/-- C3 (amended): the DiivooWT11W device-specific status parser never raises
for any input string: missing `'#'` is logged and ignored, and the hex parse
runs inside `try`/`except` with all fallible conversions locally guarded, so
the decode always completes with a state.  (The shared `Dxx` parser and the
RainPointDisplayHub specific parser, by contrast, do raise on malformed
payloads; see the counterexample.) -/
theorem c3_diivoo_never_raises (st : ZonesState) (s : List Char) :
    ∃ st1, diivooParseSpecificE st s = Except.ok st1 := by
  unfold diivooParseSpecificE
  by_cases hc : s.contains '#' = false
  · rw [if_pos hc]
    exact ⟨st, rfl⟩
  · rw [if_neg hc]
    by_cases hp : (s.splitOn '#').length < 2
    · rw [if_pos hp]
      exact ⟨st, rfl⟩
    · rw [if_neg hp]
      exact ⟨parseHexStatusData ((s.splitOn '#').getD 1 []) st, rfl⟩

/-- C3 counterexample: decoding the malformed payload `"garbage"` through the
`RainPointDisplayHub` `Dxx` parser raises a `ValueError` (the
`general_str, specific_str = val.split(';')` unpacking fails), contradicting
the claim that malformed device-specific payloads never raise. -/
theorem c3_display_hub_raises_cex :
    displayHubParseStatusDValue initHubFields "garbage".data
      = Except.error "ValueError: not enough values to unpack (expected 2)" := by decide

/-- C10: when the hex part of a DiivooWT11W status payload (the text between
the first and second `'#'`) is shorter than 50 characters, the tag-hex decode
pass is skipped entirely and the whole zones/sequence state is unchanged,
even when that short hex part contains well-formed tags. -/
theorem c10_short_hex_skipped (st : ZonesState) (s : List Char)
    (h : (hexPartOf s).length < 50) : diivooParseSpecificE st s = Except.ok st := by
  unfold diivooParseSpecificE
  by_cases hc : s.contains '#' = false
  · rw [if_pos hc]
  · rw [if_neg hc]
    by_cases hp : (s.splitOn '#').length < 2
    · rw [if_pos hp]
    · rw [if_neg hp]
      show Except.ok (parseHexStatusData ((s.splitOn '#').getD 1 []) st) = Except.ok st
      have hskip : parseHexStatusData ((s.splitOn '#').getD 1 []) st = st := by
        unfold parseHexStatusData
        rw [if_pos]
        exact h
      rw [hskip]

theorem c10_short_hex_skipped_witness :
    (hexPartOf "11#19D82121B79AE7DE1525ADDC05".data).length < 50
  ∧ diivooParseSpecificE initZones "11#19D82121B79AE7DE1525ADDC05".data
      = Except.ok initZones :=
  ⟨by decide, c10_short_hex_skipped initZones "11#19D82121B79AE7DE1525ADDC05".data (by decide)⟩

/-- C2: for every string of the shape `"A(B/C/D)"` with `A`,`B`,`C`,`D`
decimal digit runs, `_parse_stats_value` returns the 4-tuple of their integer
values; every string not of that shape yields the all-`None` result (the
decoder is total, so no exception is raised). -/
theorem c2_stats_value_decode :
    (∀ a b c d : List Char, a ≠ [] → b ≠ [] → c ≠ [] → d ≠ [] →
      (∀ x ∈ a, Char.isDigit x = true) → (∀ x ∈ b, Char.isDigit x = true) →
      (∀ x ∈ c, Char.isDigit x = true) → (∀ x ∈ d, Char.isDigit x = true) →
      parseStatsValue (a ++ '(' :: (b ++ '/' :: (c ++ '/' :: (d ++ [')'])))) =
        some (decVal a, decVal b, decVal c, decVal d))
  ∧ (∀ s : List Char, ¬ StatsShape s → parseStatsValue s = none) := by
  constructor
  · exact parseStatsValue_of_shape
  · intro s hns
    cases hp : parseStatsValue s with
    | none => rfl
    | some t => exact absurd (parseStatsValue_some_shape s t hp) hns

theorem c2_stats_value_decode_witness :
    parseStatsValue "781(781/723/1)".data = some (781, 781, 723, 1)
  ∧ parseStatsValue "garbage".data = none := by
  constructor
  · exact c2_stats_value_decode.1 "781".data "781".data "723".data "1".data
      (by decide) (by decide) (by decide) (by decide)
      (by decide) (by decide) (by decide) (by decide)
  · refine c2_stats_value_decode.2 "garbage".data (fun hsh => ?_)
    have hmem := statsShape_mem_paren hsh
    revert hmem
    decide

/-- C6 counterexample: with exactly 300000 ms remaining before expiry the code
returns `true` (it tests `time_until_expiry <= 300000`), while the claim says
`false` at exactly 300000 ms. -/
theorem c6_boundary_cex :
    isSubscriptionExpired (some { expire := some 1300000 }) 1000000 = true
  ∧ (1300000 - 1000000 : Int) = 300000 := by decide

/-- C6 (amended): `is_subscription_expired` returns true when there is no
subscription data or no usable expire value, and otherwise returns true
exactly when `expire - now ≤ 300000` ms (so at exactly 300000 ms remaining it
returns true), for any non-negative clock value. -/
theorem c6_subscription_expired_amended (sub : Option SubscriptionData) (nowMs : Int)
    (h : 0 ≤ nowMs) :
    isSubscriptionExpired sub nowMs = true ↔
      (sub = none ∨ ∃ d, sub = some d ∧
        (d.expire = none ∨ ∃ e, d.expire = some e ∧ e - nowMs ≤ 300000)) := by
  cases sub with
  | none => simp [isSubscriptionExpired]
  | some d =>
    cases hd : d.expire with
    | none => simp [isSubscriptionExpired, hd]
    | some e =>
      simp only [isSubscriptionExpired, hd]
      by_cases he : e = 0
      · rw [if_pos he]
        simp only [true_iff]
        refine Or.inr ⟨d, rfl, Or.inr ⟨e, hd, ?_⟩⟩
        omega
      · rw [if_neg he]
        constructor
        · intro ht
          exact Or.inr ⟨d, rfl, Or.inr ⟨e, hd, of_decide_eq_true ht⟩⟩
        · rintro (hcontra | ⟨d2, hd2, hrest⟩)
          · exact absurd hcontra (by simp)
          · have hdd : d2 = d := (Option.some.inj hd2).symm
            subst hdd
            rcases hrest with hnone | ⟨e2, he2, hle⟩
            · rw [hd] at hnone
              exact absurd hnone (by simp)
            · rw [hd] at he2
              have : e2 = e := (Option.some.inj he2).symm
              subst this
              exact decide_eq_true hle

theorem c6_subscription_expired_amended_witness :
    (0 : Int) ≤ 5000
  ∧ (isSubscriptionExpired (some { expire := some 10000 }) 5000 = true ↔
      ((some { expire := some 10000 } : Option SubscriptionData) = none ∨
        ∃ d, (some { expire := some 10000 } : Option SubscriptionData) = some d ∧
          (d.expire = none ∨ ∃ e, d.expire = some e ∧ e - 5000 ≤ 300000))) :=
  ⟨by decide, c6_subscription_expired_amended (some { expire := some 10000 }) 5000 (by decide)⟩

/-- C7: `ensure_logged_in` performs a fresh login iff the cached email differs
from the requested one or the cached token expiry (a missing one counting as
expired) is less than 60 minutes after the current time; otherwise it performs
no login and leaves the auth cache unchanged.  Stated for any non-negative
clock value. -/
theorem c7_ensure_logged_in (c : AuthCache) (email : String) (nowS : Int)
    (resp : LoginResponse) (h : 0 ≤ nowS) :
    ((ensureLoggedIn c email nowS resp).2 = true ↔
      (c.email ≠ some email ∨ c.token_expires = none ∨
        ∃ e, c.token_expires = some e ∧ e - nowS < 3600))
  ∧ ((ensureLoggedIn c email nowS resp).2 = false →
      (ensureLoggedIn c email nowS resp).1 = c) := by
  unfold ensureLoggedIn
  by_cases hcond : c.email ≠ some email ∨ (c.token_expires.getD 0) - nowS < 3600
  · rw [if_pos hcond]
    constructor
    · refine iff_of_true rfl ?_
      rcases hcond with hmail | hexp
      · exact Or.inl hmail
      · cases hte : c.token_expires with
        | none => exact Or.inr (Or.inl rfl)
        | some e =>
          rw [hte] at hexp
          exact Or.inr (Or.inr ⟨e, rfl, by simpa using hexp⟩)
    · intro hfalse
      exact absurd hfalse (by simp)
  · rw [if_neg hcond]
    push_neg at hcond
    obtain ⟨hmail, hexp⟩ := hcond
    constructor
    · refine iff_of_false (by simp) ?_
      rintro (hm | hn | ⟨e, he, hlt⟩)
      · exact hm hmail
      · rw [hn] at hexp
        simp only [Option.getD_none] at hexp
        omega
      · rw [he] at hexp
        simp only [Option.getD_some] at hexp
        omega
    · intro _
      rfl

/-- Concrete auth cache used in the C7 witness. -/
def c7Cache : AuthCache :=
  { email := some "user@example.com", token := some "tok"
    token_expires := some 1000000, refresh_token := none }

/-- Concrete login response used in the C7 witness. -/
def c7Resp : LoginResponse :=
  { token := some "t2", tokenExpired := 7200, refreshToken := none }

theorem c7_ensure_logged_in_witness :
    (0 : Int) ≤ 0
  ∧ (((ensureLoggedIn c7Cache "user@example.com" 0 c7Resp).2 = true ↔
      (c7Cache.email ≠ some "user@example.com" ∨ c7Cache.token_expires = none ∨
        ∃ e, c7Cache.token_expires = some e ∧ e - 0 < 3600))
  ∧ ((ensureLoggedIn c7Cache "user@example.com" 0 c7Resp).2 = false →
      (ensureLoggedIn c7Cache "user@example.com" 0 c7Resp).1 = c7Cache)) :=
  ⟨by decide, c7_ensure_logged_in c7Cache "user@example.com" 0 c7Resp (by decide)⟩

/-- C8 counterexample: a subdevice record with `did = 2` and model code 264
(a mapped code, but one that maps to the hub class `RainPointDisplayHub`) is
neither excluded by the `did == 1` check nor by the model-code check, yet
constructing it as a subdevice raises `TypeError` (the hub `__init__` requires
a `subdevices` argument that is not passed), aborting the enumeration instead
of appearing in the result as the claim requires. -/
theorem c8_hub_model_code_cex :
    enumerateSubdevices [{ did := some 2, modelCode := some 264 }]
      = Except.error "TypeError: __init__() missing 1 required positional argument: subdevices"
  ∧ ¬ ({ did := some 2, modelCode := some 264 } : SubDeviceData).did = some 1
  ∧ (getDeviceClass { did := some 2, modelCode := some 264 }).isSome = true := by decide

/-- C8 (amended): `get_devices_for_hid` excludes from the returned subdevice
list every entry with `did = 1` and every entry with an unmapped (or missing)
model code, without failing; every other entry whose model code maps to a
subdevice class appears in the returned list.  (An entry whose mapped class is
a hub class aborts the enumeration with a `TypeError`; see the
counterexample.) -/
theorem c8_subdevice_filtering_amended (subs : List SubDeviceData)
    (hno : ∀ d ∈ subs, ¬ d.did = some 1 →
      ∀ cls, getDeviceClass d = some cls → requiresSubdevicesArg cls = false) :
    ∃ res, enumerateSubdevices subs = Except.ok res ∧
      ∀ d : SubDeviceData, d ∈ res ↔
        (d ∈ subs ∧ ¬ d.did = some 1 ∧ (getDeviceClass d).isSome = true) := by
  induction subs with
  | nil => exact ⟨[], rfl, by simp⟩
  | cons d0 rest ih =>
    obtain ⟨res, hres, hmem⟩ := ih (fun d hd => hno d (List.mem_cons_of_mem _ hd))
    by_cases h1 : d0.did = some 1
    · refine ⟨res, ?_, ?_⟩
      · rw [enumerateSubdevices_skip_did d0 rest h1, hres]
      · intro d
        rw [hmem d]
        constructor
        · rintro ⟨hd, hdid, hcls⟩
          exact ⟨List.mem_cons_of_mem _ hd, hdid, hcls⟩
        · rintro ⟨hd, hdid, hcls⟩
          rcases List.mem_cons.mp hd with rfl | hd2
          · exact absurd h1 hdid
          · exact ⟨hd2, hdid, hcls⟩
    · cases hcls0 : getDeviceClass d0 with
      | none =>
        refine ⟨res, ?_, ?_⟩
        · rw [enumerateSubdevices_skip_unmapped d0 rest h1 hcls0, hres]
        · intro d
          rw [hmem d]
          constructor
          · rintro ⟨hd, hdid, hcls⟩
            exact ⟨List.mem_cons_of_mem _ hd, hdid, hcls⟩
          · rintro ⟨hd, hdid, hcls⟩
            rcases List.mem_cons.mp hd with rfl | hd2
            · rw [hcls0] at hcls
              exact absurd hcls (by simp)
            · exact ⟨hd2, hdid, hcls⟩
      | some cls =>
        have hhub : requiresSubdevicesArg cls = false := hno d0 (by simp) h1 cls hcls0
        refine ⟨d0 :: res, ?_, ?_⟩
        · rw [enumerateSubdevices_cons_class d0 rest cls h1 hcls0,
            if_neg (by simp [hhub]), hres]
          rfl
        · intro d
          simp only [List.mem_cons]
          constructor
          · rintro (rfl | hd)
            · exact ⟨Or.inl rfl, h1, by rw [hcls0]; rfl⟩
            · obtain ⟨hd2, hdid, hcls⟩ := (hmem d).mp hd
              exact ⟨Or.inr hd2, hdid, hcls⟩
          · rintro ⟨(rfl | hd), hdid, hcls⟩
            · exact Or.inl rfl
            · exact Or.inr ((hmem d).mpr ⟨hd, hdid, hcls⟩)

/-- Concrete subdevice listing used in the C8 witness: a reserved display
record (`did = 1`), an unmapped model code, and a Diivoo timer. -/
def c8Subs : List SubDeviceData :=
  [{ did := some 1, modelCode := some 271 },
   { did := some 2, modelCode := some 999 },
   { did := some 5, modelCode := some 271 }]

theorem c8_subdevice_filtering_amended_witness :
    (∀ d ∈ c8Subs, ¬ d.did = some 1 →
      ∀ cls, getDeviceClass d = some cls → requiresSubdevicesArg cls = false)
  ∧ ∃ res, enumerateSubdevices c8Subs = Except.ok res ∧
      ∀ d : SubDeviceData, d ∈ res ↔
        (d ∈ c8Subs ∧ ¬ d.did = some 1 ∧ (getDeviceClass d).isSome = true) :=
  ⟨by decide, c8_subdevice_filtering_amended c8Subs (by decide)⟩
